import Mathlib

/-
Verification of the DUNE Pioneer control task
(`Control/Pioneer` task source; file `part_001` of the excerpt).

The task's own logic (dispatch, time sync, command sending, telemetry
translation, heartbeat watchdog, UDP sender acceptance) is embedded
directly from the source.  The protocol headers (`Comm.hpp`,
`ProtocolPack.hpp`, `ProtocolMessages.hpp`, `ProtocolCommands.hpp`) are
not part of the excerpt; their behavior is kept abstract (oracles for
the pack/unpack codec, abstract numeric type codes) or modelled from
the specification where a claim depends on it.

Machine floating-point times are modelled as rationals (ℚ); all clock
reads inside one invocation of a task method are modelled as a single
time sample.  Device angle fields are integers; the radian conversion
is modelled over ℝ.
-/

namespace Pioneer

/-- Task arguments (struct `Arguments` of the task source): the
configuration surface consumed by the Pioneer task. -/
structure Arguments where
  comm_timeout : Nat
  listen_mode : Bool
  filter_udp_to_tcp_address : Bool
  generate_estimate_state_from_telemetry : Bool
  TCP_port : Nat
  TCP_addr : Nat
  UDP_listen_port : Nat
  log_pioneer_raw : Bool
  log_pioneer_imc : Bool
  set_time_of_vehicle : Bool
  deriving DecidableEq

/-- Modelled from the spec: the numeric message type codes live in
`ProtocolMessages.hpp` / `ProtocolCommands.hpp`, which are not in the
excerpt.  The telemetry channel uses 2-byte codes, the command/reply
channel 1-byte codes; the values are kept abstract. -/
structure ProtocolCodes where
  PIONEER_MSG_VERSION_1_TELEMETRY_CODE : Nat
  PIONEER_MSG_VERSION_2_TELEMETRY_CODE : Nat
  PIONEER_MSG_VERSION_2_COMPASS_CALIBRATION_CODE : Nat
  PIONEER_REPLY_VERSION_2_ACK : Nat
  PIONEER_REPLY_VERSION_2_PING : Nat
  PIONEER_REPLY_VERSION_2_GET_CAMERA : Nat
  deriving DecidableEq

/-- Modelled from the spec: `ProtocolMessages.hpp` is not in the
excerpt; the fields are exactly those the task source accesses
(`msg->time`, `msg.battery_voltage`). -/
structure DataVersion1Telemetry where
  time : Nat
  battery_voltage : Nat
  deriving DecidableEq

/-- Modelled from the spec: `ProtocolMessages.hpp` is not in the
excerpt; the fields are exactly those the task source accesses. -/
structure DataVersion2Telemetry where
  time : Nat
  rt_clock : Int
  depth : Int
  roll : Int
  pitch : Int
  yaw : Int
  temp_water : Int
  deriving DecidableEq

/-- Modelled from the spec: compass-calibration-progress record;
only `progress_thruster` is accessed by the task source. -/
structure DataVersion2Compasscalibration where
  progress_thruster : Nat
  deriving DecidableEq

/-- Modelled from the spec: acknowledgement reply record
(`ProtocolCommands.hpp` is not in the excerpt). -/
structure ReplyVersion2Ack where
  dummy : Nat
  deriving DecidableEq

/-- Modelled from the spec: ping reply record. -/
structure ReplyVersion2Ping where
  dummy : Nat
  deriving DecidableEq

/-- Modelled from the spec: camera-parameter reply record; only
`camera_bitrate` is accessed by the task source. -/
structure ReplyVersion2GetCameraParameters where
  camera_bitrate : Int
  deriving DecidableEq

/-- Reading a byte from the receive buffer, `buf[i]`.  The C buffer
extends past the declared length; bytes beyond the modelled list are
read as 0 (their value is irrelevant, only the index read matters). -/
def byteAt (buf : List Nat) (i : Nat) : Nat :=
  buf.getD i 0

/-- The byte range `&buf[s] .. &buf[s] + n` handed to
`dispatchAsDevDataBinary`. -/
def slice (buf : List Nat) (s n : Nat) : List Nat :=
  (buf.drop s).take n

/-- C cast to an integer type, truncation toward zero, as applied to a
`double` by `(int16_t)(...)` and `(int32_t)(...)` in the source. -/
def ctrunc (q : ℚ) : Int :=
  if 0 ≤ q then ⌊q⌋ else -⌊-q⌋

/-- Wrap-around of an integer value into the signed 16-bit range, the
effect of storing into the `int16_t` field `connection_duration`. -/
def wrap16 (n : Int) : Int :=
  ((n + 32768) % 65536) - 32768

/-- Wrap-around into the signed 32-bit range, the effect of storing
into the `int32_t` field `unix_timestamp`. -/
def wrap32 (n : Int) : Int :=
  ((n + 2147483648) % 4294967296) - 2147483648

/-- Environment of one `sendCommand` call: the configuration and
channel state it reads, and oracles for the two external operations it
invokes (`ProtocolPack::Pack::pack`, which returns a byte count or
throws, and `TCPComm::sendData`, which returns a byte count or throws;
both live in headers outside the excerpt). -/
structure SendEnv where
  listen_mode : Bool
  connected : Bool
  packResult : Except Unit Nat
  sendData : Nat → Except Unit Int

/-- Observable outcome of one `sendCommand` call: the returned value
`sd`, whether `sendData` was invoked (a socket write was attempted),
whether the serialized bytes were written to the outbound command
logger, and whether `dispatchAsDevDataBinary` (the structured echo)
was invoked. -/
structure SendOutcome where
  ret : Int
  socket_write : Bool
  logger_write : Bool
  echo : Bool
  deriving DecidableEq

/-- Embedding of `Task::sendCommand` (task source lines 567-595):
suppressed (returns 0, touches nothing) in listen mode or when the TCP
channel is not connected; otherwise packs, sends, and mirrors the
bytes to the command logger and the structured echo only when the
returned byte count is positive.  Exceptions from pack/send are caught
in the function; `sd` keeps its value from before the throw. -/
def sendCommand (env : SendEnv) : SendOutcome :=
  if env.listen_mode = true ∨ env.connected = false then
    ⟨0, false, false, false⟩
  else
    match env.packResult with
    | Except.error _ => ⟨0, false, false, false⟩
    | Except.ok dataLength =>
      match env.sendData dataLength with
      | Except.error _ => ⟨0, true, false, false⟩
      | Except.ok sd =>
        if 0 < sd then ⟨sd, true, true, true⟩ else ⟨sd, true, false, false⟩

/-- Claim C3: for every record type, `sendCommand` returns 0 and
performs no socket write, no raw-logger write and no structured-echo
dispatch when listen-only mode is set or the reliable channel is
disconnected; otherwise it serializes, transmits via the reliable
channel's `sendData`, returns the byte count sent, and mirrors the
serialized bytes to the command logger and the structured echo exactly
when the returned byte count is non-zero. -/
theorem sendCommand_contract (env : SendEnv) :
    ((env.listen_mode = true ∨ env.connected = false) →
      sendCommand env = ⟨0, false, false, false⟩)
    ∧ (∀ L sd, env.listen_mode = false → env.connected = true →
        env.packResult = Except.ok L → env.sendData L = Except.ok sd →
        (sendCommand env).ret = sd ∧ (sendCommand env).socket_write = true
        ∧ ((sendCommand env).logger_write = true ↔ 0 < sd)
        ∧ ((sendCommand env).echo = true ↔ 0 < sd)) := by
  constructor
  · intro h
    unfold sendCommand
    rw [if_pos h]
  · intro L sd hl hc hp hs
    have hcond : ¬ (env.listen_mode = true ∨ env.connected = false) := by
      simp [hl, hc]
    unfold sendCommand
    rw [if_neg hcond, hp]
    dsimp only
    rw [hs]
    dsimp only
    by_cases hsd : 0 < sd
    · rw [if_pos hsd]
      simp [hsd]
    · rw [if_neg hsd]
      simp [hsd]

/-- Witness for C3: concrete evaluations of the two branches of the
contract. -/
theorem sendCommand_contract_witness :
    (sendCommand ⟨true, true, Except.ok 5, fun _ => Except.ok 5⟩).ret = 0
    ∧ (sendCommand ⟨false, true, Except.ok 5, fun _ => Except.ok 5⟩).ret = 5
    ∧ (sendCommand ⟨false, true, Except.ok 5, fun _ => Except.ok 5⟩).logger_write = true := by
  refine ⟨?_, ?_, ?_⟩
  · have h := (sendCommand_contract ⟨true, true, Except.ok 5, fun _ => Except.ok 5⟩).1
      (Or.inl rfl)
    rw [h]
  · exact ((sendCommand_contract ⟨false, true, Except.ok 5, fun _ => Except.ok 5⟩).2
      5 5 rfl rfl rfl rfl).1
  · exact ((sendCommand_contract ⟨false, true, Except.ok 5, fun _ => Except.ok 5⟩).2
      5 5 rfl rfl rfl rfl).2.2.1.mpr (by norm_num)

/-- Result of one `setPioneerTime` invocation: whether a
`CmdVersion2SetSystemTime` command was issued (i.e. `sendCommand` was
invoked with one), the value `sendCommand` returned, the payload of
the command (`unix_timestamp`, the truncated local epoch seconds), and
the value of `m_last_set_time` after the call. -/
structure PioTimeResult where
  issued : Bool
  ret : Int
  payload_unix_timestamp : Int
  last_set_time : ℚ

/-- Embedding of `Task::setPioneerTime(uint32_t)` (task source lines
406-423).  `now` is the local epoch time in seconds (all
`Clock::getSinceEpoch()` reads of the invocation modelled as one
sample), `last` is `m_last_set_time`, `timeFromVehicleMsec` the device
clock in milliseconds.  Returns early when the time-set flag is off,
listen mode is on, or less than 5 s elapsed since the last recorded
correction; otherwise issues a set-system-time command when the clock
divergence exceeds 1100 ms, and records the correction time only when
`sendCommand` reported a positive byte count. -/
def setPioneerTime (args : Arguments) (connected : Bool)
    (pack : Except Unit Nat) (snd : Nat → Except Unit Int)
    (now last timeFromVehicleMsec : ℚ) : PioTimeResult :=
  if args.set_time_of_vehicle = false ∨ args.listen_mode = true ∨ now - last < 5 then
    ⟨false, 0, 0, last⟩
  else if 1100 < |now * 1000 - timeFromVehicleMsec| then
    let payload := wrap32 (ctrunc now)
    let out := sendCommand ⟨args.listen_mode, connected, pack, snd⟩
    if 0 < out.ret then ⟨true, out.ret, payload, now⟩ else ⟨true, out.ret, payload, last⟩
  else
    ⟨false, 0, 0, last⟩

/-- Claim C2: a set-system-time command is issued iff the time-set
flag is on, listen mode is off, the clock divergence exceeds 1100 ms
and at least 5 s elapsed since the last correction; the correction
timestamp is recorded when the issued command is transmitted; and two
telemetry frames 2 s apart that both exceed the threshold produce
exactly one correction command. -/
theorem setPioneerTime_policy (args : Arguments) (connected : Bool)
    (pack : Except Unit Nat) (snd : Nat → Except Unit Int)
    (now last t1 t2 : ℚ) :
    ((setPioneerTime args connected pack snd now last t1).issued = true
      ↔ (args.set_time_of_vehicle = true ∧ args.listen_mode = false
          ∧ 5 ≤ now - last ∧ 1100 < |now * 1000 - t1|))
    ∧ (0 < (setPioneerTime args connected pack snd now last t1).ret →
        (setPioneerTime args connected pack snd now last t1).last_set_time = now)
    ∧ ((setPioneerTime args connected pack snd now last t1).issued = false →
        (setPioneerTime args connected pack snd now last t1).last_set_time = last)
    ∧ ((setPioneerTime args connected pack snd now last t1).issued = true →
        0 < (setPioneerTime args connected pack snd now last t1).ret →
        (setPioneerTime args connected pack snd (now + 2)
          ((setPioneerTime args connected pack snd now last t1).last_set_time)
          t2).issued = false) := by
  have hsecond : ∀ l : ℚ, now + 2 - l < 5 →
      (setPioneerTime args connected pack snd (now + 2) l t2).issued = false := by
    intro l hl
    unfold setPioneerTime
    rw [if_pos (Or.inr (Or.inr hl))]
  unfold setPioneerTime
  by_cases h1 : args.set_time_of_vehicle = false ∨ args.listen_mode = true ∨ now - last < 5
  · rw [if_pos h1]
    refine ⟨?_, ?_, ?_, ?_⟩
    · simp only [Bool.false_eq_true, false_iff]
      rintro ⟨ha, hb, hc, -⟩
      rcases h1 with h | h | h
      · rw [ha] at h
        exact absurd h (by simp)
      · rw [hb] at h
        exact absurd h (by simp)
      · linarith
    · intro h
      exact absurd h (by norm_num)
    · intro _
      rfl
    · intro h
      exact absurd h (by simp)
  · rw [if_neg h1]
    push_neg at h1
    obtain ⟨ha, hb, hc⟩ := h1
    have ha' : args.set_time_of_vehicle = true := by
      revert ha
      cases args.set_time_of_vehicle <;> simp
    have hb' : args.listen_mode = false := by
      revert hb
      cases args.listen_mode <;> simp
    by_cases h2 : 1100 < |now * 1000 - t1|
    · rw [if_pos h2]
      by_cases h3 : 0 < (sendCommand ⟨args.listen_mode, connected, pack, snd⟩).ret
      · rw [if_pos h3]
        refine ⟨by simp [ha', hb', hc, h2], fun _ => rfl, ?_, ?_⟩
        · intro h
          exact absurd h (by simp)
        · intro _ _
          exact hsecond now (by linarith)
      · rw [if_neg h3]
        refine ⟨by simp [ha', hb', hc, h2], ?_, ?_, ?_⟩
        · intro h
          exact absurd h h3
        · intro h
          exact absurd h (by simp)
        · intro _ h
          exact absurd h h3
    · rw [if_neg h2]
      refine ⟨?_, ?_, fun _ => rfl, ?_⟩
      · simp only [Bool.false_eq_true, false_iff]
        rintro ⟨-, -, -, hd⟩
        exact h2 hd
      · intro h
        exact absurd h (by norm_num)
      · intro h
        exact absurd h (by simp)

/-- Witness for C2: with the flag on, listen mode off, a 100 s elapsed
interval and a huge divergence, the first frame issues a correction
and a second frame 2 s later does not. -/
theorem setPioneerTime_policy_witness :
    (setPioneerTime ⟨10, false, false, false, 2011, 7, 2010, true, true, true⟩
      true (Except.ok 6) (fun _ => Except.ok 6) 100 0 0).issued = true
    ∧ (setPioneerTime ⟨10, false, false, false, 2011, 7, 2010, true, true, true⟩
        true (Except.ok 6) (fun _ => Except.ok 6) (100 + 2)
        ((setPioneerTime ⟨10, false, false, false, 2011, 7, 2010, true, true, true⟩
          true (Except.ok 6) (fun _ => Except.ok 6) 100 0 0).last_set_time)
        0).issued = false := by
  have h := setPioneerTime_policy ⟨10, false, false, false, 2011, 7, 2010, true, true, true⟩
    true (Except.ok 6) (fun _ => Except.ok 6) 100 0 0 0
  have hiss : (setPioneerTime ⟨10, false, false, false, 2011, 7, 2010, true, true, true⟩
      true (Except.ok 6) (fun _ => Except.ok 6) 100 0 0).issued = true := by
    refine h.1.mpr ⟨rfl, rfl, by norm_num, by norm_num⟩
  have hval : setPioneerTime ⟨10, false, false, false, 2011, 7, 2010, true, true, true⟩
      true (Except.ok 6) (fun _ => Except.ok 6) 100 0 0 = ⟨true, 6, 100, 100⟩ := by
    unfold setPioneerTime sendCommand
    norm_num [ctrunc, wrap32]
  have hret : 0 < (setPioneerTime ⟨10, false, false, false, 2011, 7, 2010, true, true, true⟩
      true (Except.ok 6) (fun _ => Except.ok 6) 100 0 0).ret := by
    rw [hval]
    norm_num
  exact ⟨hiss, h.2.2.2 hiss hret⟩

/-- Side effects of one dispatch call, in the order they occur in the
source: the invocation of `setPioneerTime` with the record's device
clock, the verbatim mirror of the raw bytes as `IMC::DevDataBinary`
(the structured observation echo), and the per-record handler call. -/
inductive Event where
  | timeSync (timeMs : Nat)
  | mirror (bytes : List Nat)
  | handleV1Telemetry
  | handleV2Telemetry
  | handleV2CompassCal
  | handleAck
  | handlePing
  | handleGetCamera
  deriving DecidableEq

/-- Recognizer for mirror events. -/
def isMirror : Event → Bool
  | Event.mirror _ => true
  | _ => false

/-- Recognizer for the time-sync invocation event. -/
def isTimeSync : Event → Bool
  | Event.timeSync _ => true
  | _ => false

/-- Recognizer for per-record handler events. -/
def isHandle : Event → Bool
  | Event.handleV1Telemetry => true
  | Event.handleV2Telemetry => true
  | Event.handleV2CompassCal => true
  | Event.handleAck => true
  | Event.handlePing => true
  | Event.handleGetCamera => true
  | _ => false

/-- Embedding of `Task::dispatchAsDevDataBinary` (task source lines
555-564): the structured echo, emitted only when the
`log_pioneer_imc` flag is set. -/
def dispatchAsDevDataBinary (log_pioneer_imc : Bool) (bytes : List Nat) : List Event :=
  if log_pioneer_imc = false then [] else [Event.mirror bytes]

/-- Modelled from the spec: `ProtocolPack.hpp`'s
`Pack::unpack<T>(task, buf, startIndex, length, msg)` is not in the
excerpt.  Each codec call is an oracle mapping the buffer, start index
and length either to a thrown exception (`Except.error`) or to the
returned byte count together with the filled record. -/
structure TelemetryUnpack where
  unpackV1 : List Nat → Nat → Nat → Except Unit (Int × DataVersion1Telemetry)
  unpackV2 : List Nat → Nat → Nat → Except Unit (Int × DataVersion2Telemetry)
  unpackCompass : List Nat → Nat → Nat → Except Unit (Int × DataVersion2Compasscalibration)

/-- Modelled from the spec: the command/reply-channel codec oracles,
as for `TelemetryUnpack`. -/
structure RepliesUnpack where
  unpackAck : List Nat → Nat → Nat → Except Unit (Int × ReplyVersion2Ack)
  unpackPing : List Nat → Nat → Nat → Except Unit (Int × ReplyVersion2Ping)
  unpackGetCamera : List Nat → Nat → Nat → Except Unit (Int × ReplyVersion2GetCameraParameters)

/-- Result of one dispatch call: the returned byte count `rb`, the
buffer indices the dispatcher itself read to inspect the type code
(codec reads are inside the oracles), and the side effects in order. -/
structure ParseResult where
  rb : Int
  reads : List Nat
  events : List Event
  deriving DecidableEq

/-- Embedding of `Task::pioneerMessagesParse` (task source lines
426-487), the telemetry-channel dispatcher.  It combines the two
leading bytes into a 2-byte type code — reading `buf[startIndex]` and
`buf[startIndex + 1]` unconditionally, with no check of `length` —
then decodes the recognized record kinds; on a positive byte count it
invokes `setPioneerTime` (V1/V2 telemetry), mirrors the consumed
bytes, and calls the handler.  Unrecognized codes leave `rb = 0`; a
codec exception is caught at the boundary and yields 0. -/
def pioneerMessagesParse (codes : ProtocolCodes) (args : Arguments)
    (U : TelemetryUnpack) (buf : List Nat) (startIndex length : Nat) : ParseResult :=
  let reads := [startIndex, startIndex + 1]
  let code := byteAt buf startIndex * 256 + byteAt buf (startIndex + 1)
  if code = codes.PIONEER_MSG_VERSION_1_TELEMETRY_CODE then
    match U.unpackV1 buf startIndex length with
    | Except.error _ => ⟨0, reads, []⟩
    | Except.ok (rb, msg) =>
      if 0 < rb then
        ⟨rb, reads, Event.timeSync msg.time ::
          (dispatchAsDevDataBinary args.log_pioneer_imc (slice buf startIndex rb.toNat)
            ++ [Event.handleV1Telemetry])⟩
      else ⟨rb, reads, []⟩
  else if code = codes.PIONEER_MSG_VERSION_2_TELEMETRY_CODE then
    match U.unpackV2 buf startIndex length with
    | Except.error _ => ⟨0, reads, []⟩
    | Except.ok (rb, msg) =>
      if 0 < rb then
        ⟨rb, reads, Event.timeSync msg.time ::
          (dispatchAsDevDataBinary args.log_pioneer_imc (slice buf startIndex rb.toNat)
            ++ [Event.handleV2Telemetry])⟩
      else ⟨rb, reads, []⟩
  else if code = codes.PIONEER_MSG_VERSION_2_COMPASS_CALIBRATION_CODE then
    match U.unpackCompass buf startIndex length with
    | Except.error _ => ⟨0, reads, []⟩
    | Except.ok (rb, _) =>
      if 0 < rb then
        ⟨rb, reads, dispatchAsDevDataBinary args.log_pioneer_imc (slice buf startIndex rb.toNat)
          ++ [Event.handleV2CompassCal]⟩
      else ⟨rb, reads, []⟩
  else
    ⟨0, reads, []⟩

/-- Embedding of `Task::pioneerCommandRepliesParse` (task source lines
490-553), the command/reply-channel dispatcher.  It inspects the
single leading byte `buf[startIndex]`; on a positive byte count it
mirrors the consumed bytes and calls the handler.  Unrecognized codes
leave `rb = 0`; a codec exception is caught at the boundary and
yields 0. -/
def pioneerCommandRepliesParse (codes : ProtocolCodes) (args : Arguments)
    (R : RepliesUnpack) (buf : List Nat) (startIndex length : Nat) : ParseResult :=
  let reads := [startIndex]
  let code := byteAt buf startIndex
  if code = codes.PIONEER_REPLY_VERSION_2_ACK then
    match R.unpackAck buf startIndex length with
    | Except.error _ => ⟨0, reads, []⟩
    | Except.ok (rb, _) =>
      if 0 < rb then
        ⟨rb, reads, dispatchAsDevDataBinary args.log_pioneer_imc (slice buf startIndex rb.toNat)
          ++ [Event.handleAck]⟩
      else ⟨rb, reads, []⟩
  else if code = codes.PIONEER_REPLY_VERSION_2_PING then
    match R.unpackPing buf startIndex length with
    | Except.error _ => ⟨0, reads, []⟩
    | Except.ok (rb, _) =>
      if 0 < rb then
        ⟨rb, reads, dispatchAsDevDataBinary args.log_pioneer_imc (slice buf startIndex rb.toNat)
          ++ [Event.handlePing]⟩
      else ⟨rb, reads, []⟩
  else if code = codes.PIONEER_REPLY_VERSION_2_GET_CAMERA then
    match R.unpackGetCamera buf startIndex length with
    | Except.error _ => ⟨0, reads, []⟩
    | Except.ok (rb, _) =>
      if 0 < rb then
        ⟨rb, reads, dispatchAsDevDataBinary args.log_pioneer_imc (slice buf startIndex rb.toNat)
          ++ [Event.handleGetCamera]⟩
      else ⟨rb, reads, []⟩
  else
    ⟨0, reads, []⟩

/-- Sample concrete type-code assignment used for concrete
evaluations (the real values live outside the excerpt; no theorem
depends on these particular numbers). -/
def sampleCodes : ProtocolCodes :=
  ⟨513, 514, 515, 1, 2, 3⟩

/-- Sample concrete arguments with the structured echo enabled. -/
def argsEcho : Arguments :=
  ⟨10, false, false, false, 2011, 7, 2010, true, true, true⟩

/-- Sample telemetry-channel codec oracle: every decode succeeds,
consuming 2 bytes. -/
def sampleTelemetryU : TelemetryUnpack :=
  ⟨fun _ _ _ => Except.ok (2, ⟨7, 0⟩),
   fun _ _ _ => Except.ok (2, ⟨7, 0, 1500, 90, 0, 0, 123⟩),
   fun _ _ _ => Except.ok (2, ⟨0⟩)⟩

/-- Sample reply-channel codec oracle: every decode succeeds,
consuming 1 byte. -/
def sampleRepliesU : RepliesUnpack :=
  ⟨fun _ _ _ => Except.ok (1, ⟨0⟩),
   fun _ _ _ => Except.ok (1, ⟨0⟩),
   fun _ _ _ => Except.ok (1, ⟨0⟩)⟩

/-- Claim C1 (code bug): at a well-formed input whose leading type
code is unrecognized, both dispatchers return 0 consumed bytes — not
the at-least-one byte the claim requires — so repeated dispatch on an
all-unknown buffer makes no progress.  Here the telemetry buffer
`[255, 255]` (code 65535) and the reply buffer `[9]` (code 9) match
none of the registered codes of `sampleCodes`. -/
theorem dispatch_unknown_code_consumes_zero :
    (pioneerMessagesParse sampleCodes argsEcho sampleTelemetryU [255, 255] 0 2).rb = 0
    ∧ (pioneerMessagesParse sampleCodes argsEcho sampleTelemetryU [255, 255] 0 2).events = []
    ∧ (pioneerCommandRepliesParse sampleCodes argsEcho sampleRepliesU [9] 0 1).rb = 0
    ∧ (pioneerCommandRepliesParse sampleCodes argsEcho sampleRepliesU [9] 0 1).events = [] := by
  refine ⟨?_, ?_, ?_, ?_⟩ <;> rfl

/-- Claim C4 (code bug): with a declared length of 1, the telemetry
dispatcher still reads the byte at index `startIndex + 1 = 1`, which
lies outside the declared range `[0, 0 + 1)`: the index set read is
`[0, 1]` and it contains an index `≥ 0 + 1`. -/
theorem dispatch_reads_beyond_declared_length :
    (pioneerMessagesParse sampleCodes argsEcho sampleTelemetryU [65, 66, 67] 0 1).reads = [0, 1]
    ∧ ∃ i ∈ (pioneerMessagesParse sampleCodes argsEcho sampleTelemetryU [65, 66, 67] 0 1).reads,
        0 + 1 ≤ i := by
  refine ⟨rfl, ⟨1, ?_, ?_⟩⟩
  · show 1 ∈ [0, 1]
    simp
  · norm_num

/-- A handler event is not a mirror event. -/
lemma not_mirror_of_handle (e : Event) (h : isHandle e = true) : isMirror e = false := by
  cases e <;> simp [isHandle, isMirror] at *

/-- A handler event is not a time-sync event. -/
lemma not_timeSync_of_handle (e : Event) (h : isHandle e = true) : isTimeSync e = false := by
  cases e <;> simp [isHandle, isTimeSync] at *

/-- The event list of a telemetry-channel dispatch has one of three
shapes: empty; time-sync then echo then handler (V1/V2 telemetry); or
echo then handler (compass calibration). -/
lemma messagesParse_events_shape (codes : ProtocolCodes) (args : Arguments)
    (U : TelemetryUnpack) (buf : List Nat) (s len : Nat) :
    (pioneerMessagesParse codes args U buf s len).events = []
    ∨ (∃ t bs h, isHandle h = true ∧
        (pioneerMessagesParse codes args U buf s len).events
          = Event.timeSync t :: (dispatchAsDevDataBinary args.log_pioneer_imc bs ++ [h]))
    ∨ (∃ bs h, isHandle h = true ∧
        (pioneerMessagesParse codes args U buf s len).events
          = dispatchAsDevDataBinary args.log_pioneer_imc bs ++ [h]) := by
  by_cases c1 : byteAt buf s * 256 + byteAt buf (s + 1)
      = codes.PIONEER_MSG_VERSION_1_TELEMETRY_CODE
  · cases hu : U.unpackV1 buf s len with
    | error e => exact Or.inl (by simp [pioneerMessagesParse, if_pos c1, hu])
    | ok p =>
      obtain ⟨rb, msg⟩ := p
      by_cases hrb : 0 < rb
      · exact Or.inr (Or.inl ⟨msg.time, slice buf s rb.toNat, Event.handleV1Telemetry, rfl,
          by simp [pioneerMessagesParse, if_pos c1, hu, hrb]⟩)
      · exact Or.inl (by simp [pioneerMessagesParse, if_pos c1, hu, hrb])
  · by_cases c2 : byteAt buf s * 256 + byteAt buf (s + 1)
        = codes.PIONEER_MSG_VERSION_2_TELEMETRY_CODE
    · cases hu : U.unpackV2 buf s len with
      | error e => exact Or.inl (by simp [pioneerMessagesParse, if_neg c1, if_pos c2, hu])
      | ok p =>
        obtain ⟨rb, msg⟩ := p
        by_cases hrb : 0 < rb
        · exact Or.inr (Or.inl ⟨msg.time, slice buf s rb.toNat, Event.handleV2Telemetry, rfl,
            by simp [pioneerMessagesParse, if_neg c1, if_pos c2, hu, hrb]⟩)
        · exact Or.inl (by simp [pioneerMessagesParse, if_neg c1, if_pos c2, hu, hrb])
    · by_cases c3 : byteAt buf s * 256 + byteAt buf (s + 1)
          = codes.PIONEER_MSG_VERSION_2_COMPASS_CALIBRATION_CODE
      · cases hu : U.unpackCompass buf s len with
        | error e => exact Or.inl (by simp [pioneerMessagesParse, if_neg c1, if_neg c2, if_pos c3, hu])
        | ok p =>
          obtain ⟨rb, msg⟩ := p
          by_cases hrb : 0 < rb
          · exact Or.inr (Or.inr ⟨slice buf s rb.toNat, Event.handleV2CompassCal, rfl,
              by simp [pioneerMessagesParse, if_neg c1, if_neg c2, if_pos c3, hu, hrb]⟩)
          · exact Or.inl (by simp [pioneerMessagesParse, if_neg c1, if_neg c2, if_pos c3, hu, hrb])
      · exact Or.inl (by simp [pioneerMessagesParse, if_neg c1, if_neg c2, if_neg c3])

/-- The event list of a reply-channel dispatch is either empty or an
echo followed by a handler. -/
lemma repliesParse_events_shape (codes : ProtocolCodes) (args : Arguments)
    (R : RepliesUnpack) (buf : List Nat) (s len : Nat) :
    (pioneerCommandRepliesParse codes args R buf s len).events = []
    ∨ (∃ bs h, isHandle h = true ∧
        (pioneerCommandRepliesParse codes args R buf s len).events
          = dispatchAsDevDataBinary args.log_pioneer_imc bs ++ [h]) := by
  by_cases c1 : byteAt buf s = codes.PIONEER_REPLY_VERSION_2_ACK
  · cases hu : R.unpackAck buf s len with
    | error e => exact Or.inl (by simp [pioneerCommandRepliesParse, if_pos c1, hu])
    | ok p =>
      obtain ⟨rb, msg⟩ := p
      by_cases hrb : 0 < rb
      · exact Or.inr ⟨slice buf s rb.toNat, Event.handleAck, rfl,
          by simp [pioneerCommandRepliesParse, if_pos c1, hu, hrb]⟩
      · exact Or.inl (by simp [pioneerCommandRepliesParse, if_pos c1, hu, hrb])
  · by_cases c2 : byteAt buf s = codes.PIONEER_REPLY_VERSION_2_PING
    · cases hu : R.unpackPing buf s len with
      | error e => exact Or.inl (by simp [pioneerCommandRepliesParse, if_neg c1, if_pos c2, hu])
      | ok p =>
        obtain ⟨rb, msg⟩ := p
        by_cases hrb : 0 < rb
        · exact Or.inr ⟨slice buf s rb.toNat, Event.handlePing, rfl,
            by simp [pioneerCommandRepliesParse, if_neg c1, if_pos c2, hu, hrb]⟩
        · exact Or.inl (by simp [pioneerCommandRepliesParse, if_neg c1, if_pos c2, hu, hrb])
    · by_cases c3 : byteAt buf s = codes.PIONEER_REPLY_VERSION_2_GET_CAMERA
      · cases hu : R.unpackGetCamera buf s len with
        | error e => exact Or.inl (by simp [pioneerCommandRepliesParse, if_neg c1, if_neg c2, if_pos c3, hu])
        | ok p =>
          obtain ⟨rb, msg⟩ := p
          by_cases hrb : 0 < rb
          · exact Or.inr ⟨slice buf s rb.toNat, Event.handleGetCamera, rfl,
              by simp [pioneerCommandRepliesParse, if_neg c1, if_neg c2, if_pos c3, hu, hrb]⟩
          · exact Or.inl (by simp [pioneerCommandRepliesParse, if_neg c1, if_neg c2, if_pos c3, hu, hrb])
      · exact Or.inl (by simp [pioneerCommandRepliesParse, if_neg c1, if_neg c2, if_neg c3])

@[simp] lemma isMirror_mirror (bs : List Nat) : isMirror (Event.mirror bs) = true := rfl

@[simp] lemma isMirror_timeSync (t : Nat) : isMirror (Event.timeSync t) = false := rfl

@[simp] lemma isTimeSync_timeSync (t : Nat) : isTimeSync (Event.timeSync t) = true := rfl

@[simp] lemma isTimeSync_mirror (bs : List Nat) : isTimeSync (Event.mirror bs) = false := rfl

@[simp] lemma isHandle_timeSync (t : Nat) : isHandle (Event.timeSync t) = false := rfl

@[simp] lemma isHandle_mirror (bs : List Nat) : isHandle (Event.mirror bs) = false := rfl

/-- With the echo flag set the structured echo is one mirror event. -/
lemma devdata_true (bs : List Nat) : dispatchAsDevDataBinary true bs = [Event.mirror bs] := rfl

/-- With the echo flag clear the structured echo is empty. -/
lemma devdata_false (bs : List Nat) : dispatchAsDevDataBinary false bs = [] := rfl

/-- Mirror gating and ordering on the telemetry channel. -/
lemma messages_mirror_part (codes : ProtocolCodes) (args : Arguments)
    (U : TelemetryUnpack) (buf : List Nat) (s len : Nat) :
    (args.log_pioneer_imc = false →
      (pioneerMessagesParse codes args U buf s len).events.any isMirror = false)
    ∧ (args.log_pioneer_imc = true →
      ((pioneerMessagesParse codes args U buf s len).events.any isHandle = true →
        (pioneerMessagesParse codes args U buf s len).events.any isMirror = true
        ∧ (pioneerMessagesParse codes args U buf s len).events.findIdx isMirror
            < (pioneerMessagesParse codes args U buf s len).events.findIdx isHandle)
      ∧ ((pioneerMessagesParse codes args U buf s len).events.any isTimeSync = true →
          (pioneerMessagesParse codes args U buf s len).events.findIdx isTimeSync
            < (pioneerMessagesParse codes args U buf s len).events.findIdx isMirror)) := by
  rcases messagesParse_events_shape codes args U buf s len with hM | ⟨t, bs, h, hh, hM⟩
    | ⟨bs, h, hh, hM⟩
  · rw [hM]
    exact ⟨fun _ => rfl, fun _ => ⟨fun hc => by simp at hc, fun hc => by simp at hc⟩⟩
  · rw [hM]
    constructor
    · intro hfl
      rw [hfl, devdata_false]
      simp [not_mirror_of_handle _ hh]
    · intro hfl
      rw [hfl, devdata_true]
      constructor
      · intro _
        constructor
        · simp
        · simp [List.findIdx_cons, hh, not_mirror_of_handle _ hh, not_timeSync_of_handle _ hh]
      · intro _
        simp [List.findIdx_cons]
  · rw [hM]
    constructor
    · intro hfl
      rw [hfl, devdata_false]
      simp [not_mirror_of_handle _ hh]
    · intro hfl
      rw [hfl, devdata_true]
      constructor
      · intro _
        constructor
        · simp
        · simp [List.findIdx_cons, hh, not_mirror_of_handle _ hh]
      · intro hc
        simp [not_timeSync_of_handle _ hh] at hc

/-- Mirror gating and ordering on the command/reply channel. -/
lemma replies_mirror_part (codes : ProtocolCodes) (args : Arguments)
    (R : RepliesUnpack) (buf : List Nat) (s len : Nat) :
    (args.log_pioneer_imc = false →
      (pioneerCommandRepliesParse codes args R buf s len).events.any isMirror = false)
    ∧ (args.log_pioneer_imc = true →
      ((pioneerCommandRepliesParse codes args R buf s len).events.any isHandle = true →
        (pioneerCommandRepliesParse codes args R buf s len).events.any isMirror = true
        ∧ (pioneerCommandRepliesParse codes args R buf s len).events.findIdx isMirror
            < (pioneerCommandRepliesParse codes args R buf s len).events.findIdx isHandle)) := by
  rcases repliesParse_events_shape codes args R buf s len with hR | ⟨bs, h, hh, hR⟩
  · rw [hR]
    exact ⟨fun _ => rfl, fun _ => fun hc => by simp at hc⟩
  · rw [hR]
    constructor
    · intro hfl
      rw [hfl, devdata_false]
      simp [not_mirror_of_handle _ hh]
    · intro hfl
      rw [hfl, devdata_true]
      intro _
      constructor
      · simp
      · simp [List.findIdx_cons, hh, not_mirror_of_handle _ hh]

/-- Counterexample to claim C7: for a successfully decoded V2
telemetry record with the structured-echo flag set, the dispatcher
invokes the time-sync policy with the device clock strictly before it
mirrors the raw bytes: both events occur and the time-sync event's
index precedes the mirror's. -/
theorem mirror_not_before_timesync :
    (pioneerMessagesParse sampleCodes argsEcho sampleTelemetryU [2, 2] 0 2).events.any
      isMirror = true
    ∧ (pioneerMessagesParse sampleCodes argsEcho sampleTelemetryU [2, 2] 0 2).events.any
      isTimeSync = true
    ∧ (pioneerMessagesParse sampleCodes argsEcho sampleTelemetryU [2, 2] 0 2).events.findIdx
        isTimeSync
      < (pioneerMessagesParse sampleCodes argsEcho sampleTelemetryU [2, 2] 0 2).events.findIdx
        isMirror := by
  refine ⟨?_, ?_, ?_⟩ <;> decide

/-- Claim C7 as amended: on both channels, a successfully decoded
record is mirrored verbatim when the structured-echo flag is set —
after the time-sync policy has examined the device clock (telemetry
records), but before the record's handler translates and publishes its
fields — and no mirror is emitted when the flag is clear. -/
theorem mirror_gating_and_order (codes : ProtocolCodes) (args : Arguments)
    (U : TelemetryUnpack) (R : RepliesUnpack) (buf : List Nat) (s len : Nat) :
    (args.log_pioneer_imc = false →
      (pioneerMessagesParse codes args U buf s len).events.any isMirror = false
      ∧ (pioneerCommandRepliesParse codes args R buf s len).events.any isMirror = false)
    ∧ (args.log_pioneer_imc = true →
      ((pioneerMessagesParse codes args U buf s len).events.any isHandle = true →
        (pioneerMessagesParse codes args U buf s len).events.any isMirror = true
        ∧ (pioneerMessagesParse codes args U buf s len).events.findIdx isMirror
            < (pioneerMessagesParse codes args U buf s len).events.findIdx isHandle)
      ∧ ((pioneerMessagesParse codes args U buf s len).events.any isTimeSync = true →
          (pioneerMessagesParse codes args U buf s len).events.findIdx isTimeSync
            < (pioneerMessagesParse codes args U buf s len).events.findIdx isMirror)
      ∧ ((pioneerCommandRepliesParse codes args R buf s len).events.any isHandle = true →
        (pioneerCommandRepliesParse codes args R buf s len).events.any isMirror = true
        ∧ (pioneerCommandRepliesParse codes args R buf s len).events.findIdx isMirror
            < (pioneerCommandRepliesParse codes args R buf s len).events.findIdx isHandle)) := by
  have hm := messages_mirror_part codes args U buf s len
  have hr := replies_mirror_part codes args R buf s len
  exact ⟨fun hfl => ⟨hm.1 hfl, hr.1 hfl⟩,
    fun hfl => ⟨(hm.2 hfl).1, (hm.2 hfl).2, hr.2 hfl⟩⟩

/-- Witness for C7's amended theorem: with the flag clear no mirror is
emitted; with the flag set a decoded V2 telemetry record's mirror
precedes its handler. -/
theorem mirror_gating_and_order_witness :
    (pioneerMessagesParse sampleCodes
        ⟨10, false, false, false, 2011, 7, 2010, true, false, true⟩
        sampleTelemetryU [2, 2] 0 2).events.any isMirror = false
    ∧ (pioneerMessagesParse sampleCodes argsEcho sampleTelemetryU [2, 2] 0 2).events.findIdx
        isMirror
      < (pioneerMessagesParse sampleCodes argsEcho sampleTelemetryU [2, 2] 0 2).events.findIdx
        isHandle := by
  constructor
  · exact ((mirror_gating_and_order sampleCodes
      ⟨10, false, false, false, 2011, 7, 2010, true, false, true⟩
      sampleTelemetryU sampleRepliesU [2, 2] 0 2).1 rfl).1
  · exact (((mirror_gating_and_order sampleCodes argsEcho
      sampleTelemetryU sampleRepliesU [2, 2] 0 2).2 rfl).1 (by decide)).2

/-- Claim C8: a codec error raised inside either channel's dispatch
path is caught at the dispatcher boundary: the call returns zero bytes
processed and performs no dispatching side effect (and, the embedding
being a total function, no exception escapes). -/
theorem dispatch_catches_decode_errors (codes : ProtocolCodes) (args : Arguments)
    (U : TelemetryUnpack) (R : RepliesUnpack) (buf : List Nat) (s len : Nat)
    (h1 : U.unpackV1 buf s len = Except.error ())
    (h2 : U.unpackV2 buf s len = Except.error ())
    (h3 : U.unpackCompass buf s len = Except.error ())
    (h4 : R.unpackAck buf s len = Except.error ())
    (h5 : R.unpackPing buf s len = Except.error ())
    (h6 : R.unpackGetCamera buf s len = Except.error ()) :
    ((pioneerMessagesParse codes args U buf s len).rb = 0
      ∧ (pioneerMessagesParse codes args U buf s len).events = [])
    ∧ ((pioneerCommandRepliesParse codes args R buf s len).rb = 0
      ∧ (pioneerCommandRepliesParse codes args R buf s len).events = []) := by
  unfold pioneerMessagesParse pioneerCommandRepliesParse
  simp only [h1, h2, h3, h4, h5, h6]
  refine ⟨⟨?_, ?_⟩, ?_, ?_⟩ <;>
    (split <;> first | rfl | (split <;> first | rfl | (split <;> rfl)))

/-- Telemetry codec oracle whose every decode throws. -/
def errTelemetryU : TelemetryUnpack :=
  ⟨fun _ _ _ => Except.error (), fun _ _ _ => Except.error (), fun _ _ _ => Except.error ()⟩

/-- Reply codec oracle whose every decode throws. -/
def errRepliesU : RepliesUnpack :=
  ⟨fun _ _ _ => Except.error (), fun _ _ _ => Except.error (), fun _ _ _ => Except.error ()⟩

/-- Witness for C8: with throwing codecs, a recognized V2-telemetry
code and a recognized ping code both yield zero bytes processed and no
side effect. -/
theorem dispatch_catches_decode_errors_witness :
    (pioneerMessagesParse sampleCodes argsEcho errTelemetryU [2, 2] 0 2).rb = 0
    ∧ (pioneerCommandRepliesParse sampleCodes argsEcho errRepliesU [2, 2] 0 2).events = [] := by
  have h := dispatch_catches_decode_errors sampleCodes argsEcho errTelemetryU errRepliesU
    [2, 2] 0 2 rfl rfl rfl rfl rfl rfl
  exact ⟨h.1.1, h.2.2⟩

/-- Embedding of the `udp_package_acceptance` lambda (task source
lines 281-284): accept the datagram sender when the UDP filter flag is
clear, or when the sender address equals the configured TCP peer
address (the conditional operator applies to the whole disjunction,
`?:` binding looser than `||`). -/
def udp_package_acceptance (args : Arguments) (address port : Nat) : Bool :=
  if !args.filter_udp_to_tcp_address || (args.TCP_addr == address) then true else false

/-- Modelled from the spec: the UDP receive path of `Comm.hpp` is not
in the excerpt.  Per the spec, each datagram's sender is evaluated by
the injected acceptance predicate before dispatch; when the predicate
returns false the datagram is dropped silently and never handed to the
dispatcher. -/
def udpHandleDatagram (accept : Nat → Nat → Bool) (dispatchFn : List Nat → Int)
    (address port : Nat) (datagram : List Nat) : Option Int :=
  if accept address port then some (dispatchFn datagram) else none

/-- Claim C5: with the UDP filter flag clear the acceptance predicate
accepts every sender; with the flag set it accepts exactly the sender
whose address equals the configured TCP peer address; and a rejected
datagram is never handed to the dispatcher. -/
theorem udp_acceptance_filter (args : Arguments) (address port : Nat) :
    (args.filter_udp_to_tcp_address = false →
      udp_package_acceptance args address port = true)
    ∧ (args.filter_udp_to_tcp_address = true →
      (udp_package_acceptance args address port = true ↔ args.TCP_addr = address))
    ∧ (∀ (dispatchFn : List Nat → Int) (datagram : List Nat),
        udp_package_acceptance args address port = false →
        udpHandleDatagram (fun a p => udp_package_acceptance args a p) dispatchFn
          address port datagram = none) := by
  refine ⟨?_, ?_, ?_⟩
  · intro h
    simp [udp_package_acceptance, h]
  · intro h
    simp [udp_package_acceptance, h]
  · intro dispatchFn datagram hf
    simp only [udpHandleDatagram, hf]
    rfl

/-- Witness for C5: filter off accepts sender 5; filter on accepts the
TCP peer 7 and a datagram from sender 8 is not dispatched. -/
theorem udp_acceptance_filter_witness :
    udp_package_acceptance argsEcho 5 99 = true
    ∧ udp_package_acceptance ⟨10, false, true, false, 2011, 7, 2010, true, true, true⟩ 7 99
        = true
    ∧ udpHandleDatagram
        (fun a p =>
          udp_package_acceptance ⟨10, false, true, false, 2011, 7, 2010, true, true, true⟩ a p)
        (fun _ => 42) 8 99 [1] = none := by
  refine ⟨?_, ?_, ?_⟩
  · exact (udp_acceptance_filter argsEcho 5 99).1 rfl
  · exact ((udp_acceptance_filter ⟨10, false, true, false, 2011, 7, 2010, true, true, true⟩
      7 99).2.1 rfl).mpr rfl
  · exact (udp_acceptance_filter ⟨10, false, true, false, 2011, 7, 2010, true, true, true⟩
      8 99).2.2 (fun _ => 42) [1] (by decide)

/-- Conversion from degrees to radians (`Angles::radians`). -/
noncomputable def radians (d : ℝ) : ℝ :=
  d * (Real.pi / 180)

/-- The published `IMC::Depth` measurement. -/
structure IMCDepth where
  value : ℚ

/-- The published `IMC::EulerAngles` orientation triple. -/
structure IMCEulerAngles where
  time : ℚ
  phi : ℝ
  theta : ℝ
  psi : ℝ
  psi_magnetic : ℝ

/-- The published `IMC::Temperature` measurement. -/
structure IMCTemperature where
  value : ℚ

/-- The published synthetic `IMC::EstimatedState`. -/
structure IMCEstimatedState where
  lat : ℝ
  lon : ℝ
  phi : ℝ
  theta : ℝ
  psi : ℝ
  depth : ℚ

/-- The messages one V2-telemetry record publishes to the bus. -/
structure V2TelemetryOut where
  depth : IMCDepth
  euler : IMCEulerAngles
  temp : IMCTemperature
  estate : Option IMCEstimatedState

/-- Embedding of `Task::handlePioneerV2Telemetry` (task source lines
626-660): publishes depth (raw ÷ 1000), the orientation triple in
radians with yaw duplicated into the magnetic heading, water
temperature (raw ÷ 10), and — when the synthetic-estimate flag is set —
an `EstimatedState` with a fixed placeholder position, the same radian
orientation and the raw (unscaled) depth field. -/
noncomputable def handlePioneerV2Telemetry (args : Arguments)
    (msg : DataVersion2Telemetry) : V2TelemetryOut :=
  { depth := ⟨(msg.depth : ℚ) / 1000⟩
    euler := ⟨(msg.rt_clock : ℚ), radians (msg.roll : ℝ), radians (msg.pitch : ℝ),
      radians (msg.yaw : ℝ), radians (msg.yaw : ℝ)⟩
    temp := ⟨(msg.temp_water : ℚ) / 10⟩
    estate :=
      if args.generate_estimate_state_from_telemetry = true then
        some ⟨radians 41.18478174, radians (-8.70657964), radians (msg.roll : ℝ),
          radians (msg.pitch : ℝ), radians (msg.yaw : ℝ), (msg.depth : ℚ)⟩
      else none }

/-- Claim C6: a decoded V2 telemetry record publishes depth = raw
÷ 1000, the orientation triple in radians with the magnetic heading
duplicating yaw, and temperature = raw ÷ 10; in particular raw depth
1500 publishes 1.500 and roll 90 publishes φ = π/2. -/
theorem v2_telemetry_translation (args : Arguments) (msg : DataVersion2Telemetry) :
    (handlePioneerV2Telemetry args msg).depth.value = (msg.depth : ℚ) / 1000
    ∧ (handlePioneerV2Telemetry args msg).euler.phi = radians (msg.roll : ℝ)
    ∧ (handlePioneerV2Telemetry args msg).euler.theta = radians (msg.pitch : ℝ)
    ∧ (handlePioneerV2Telemetry args msg).euler.psi = radians (msg.yaw : ℝ)
    ∧ (handlePioneerV2Telemetry args msg).euler.psi_magnetic
        = (handlePioneerV2Telemetry args msg).euler.psi
    ∧ (handlePioneerV2Telemetry args msg).temp.value = (msg.temp_water : ℚ) / 10
    ∧ (msg.depth = 1500 → (handlePioneerV2Telemetry args msg).depth.value = 3 / 2)
    ∧ (msg.roll = 90 → (handlePioneerV2Telemetry args msg).euler.phi = Real.pi / 2) := by
  refine ⟨rfl, rfl, rfl, rfl, rfl, rfl, ?_, ?_⟩
  · intro h
    show (msg.depth : ℚ) / 1000 = 3 / 2
    rw [h]
    norm_num
  · intro h
    show radians (msg.roll : ℝ) = Real.pi / 2
    rw [h, radians]
    push_cast
    ring

/-- Witness for C6: raw depth 1500 and roll 90 publish depth 1.5 and
φ = π/2. -/
theorem v2_telemetry_translation_witness :
    (handlePioneerV2Telemetry argsEcho ⟨7, 0, 1500, 90, 0, 0, 123⟩).depth.value = 3 / 2
    ∧ (handlePioneerV2Telemetry argsEcho ⟨7, 0, 1500, 90, 0, 0, 123⟩).euler.phi
        = Real.pi / 2 := by
  exact ⟨(v2_telemetry_translation argsEcho ⟨7, 0, 1500, 90, 0, 0, 123⟩).2.2.2.2.2.2.1 rfl,
    (v2_telemetry_translation argsEcho ⟨7, 0, 1500, 90, 0, 0, 123⟩).2.2.2.2.2.2.2 rfl⟩

/-- Claim C10: with the synthetic-estimate flag set, the published
estimate carries the raw (millimeter) depth field — exactly 1000 times
the published depth measurement — the same radian orientation as the
published triple, and the fixed placeholder position. -/
theorem v2_estate_synthetic (args : Arguments) (msg : DataVersion2Telemetry)
    (hflag : args.generate_estimate_state_from_telemetry = true) :
    (handlePioneerV2Telemetry args msg).estate
      = some ⟨radians 41.18478174, radians (-8.70657964),
          (handlePioneerV2Telemetry args msg).euler.phi,
          (handlePioneerV2Telemetry args msg).euler.theta,
          (handlePioneerV2Telemetry args msg).euler.psi,
          1000 * (handlePioneerV2Telemetry args msg).depth.value⟩
    ∧ (handlePioneerV2Telemetry args msg).estate
      = some ⟨radians 41.18478174, radians (-8.70657964), radians (msg.roll : ℝ),
          radians (msg.pitch : ℝ), radians (msg.yaw : ℝ), (msg.depth : ℚ)⟩ := by
  have hd : (msg.depth : ℚ) = 1000 * ((msg.depth : ℚ) / 1000) := by ring
  have hest : (handlePioneerV2Telemetry args msg).estate
      = some ⟨radians 41.18478174, radians (-8.70657964), radians (msg.roll : ℝ),
          radians (msg.pitch : ℝ), radians (msg.yaw : ℝ), (msg.depth : ℚ)⟩ := by
    unfold handlePioneerV2Telemetry
    rw [if_pos hflag]
  constructor
  · rw [hest]
    show some (⟨radians 41.18478174, radians (-8.70657964), radians (msg.roll : ℝ),
        radians (msg.pitch : ℝ), radians (msg.yaw : ℝ), (msg.depth : ℚ)⟩ : IMCEstimatedState)
      = some (⟨radians 41.18478174, radians (-8.70657964), radians (msg.roll : ℝ),
        radians (msg.pitch : ℝ), radians (msg.yaw : ℝ),
        1000 * ((msg.depth : ℚ) / 1000)⟩ : IMCEstimatedState)
    rw [← hd]
  · exact hest

/-- Witness for C10: at raw depth 1500, the synthetic estimate carries
depth 1500 = 1000 × 1.5. -/
theorem v2_estate_synthetic_witness :
    (handlePioneerV2Telemetry ⟨10, false, false, true, 2011, 7, 2010, true, true, true⟩
        ⟨7, 0, 1500, 90, 0, 0, 123⟩).estate
      = some ⟨radians 41.18478174, radians (-8.70657964),
          (handlePioneerV2Telemetry ⟨10, false, false, true, 2011, 7, 2010, true, true, true⟩
            ⟨7, 0, 1500, 90, 0, 0, 123⟩).euler.phi,
          (handlePioneerV2Telemetry ⟨10, false, false, true, 2011, 7, 2010, true, true, true⟩
            ⟨7, 0, 1500, 90, 0, 0, 123⟩).euler.theta,
          (handlePioneerV2Telemetry ⟨10, false, false, true, 2011, 7, 2010, true, true, true⟩
            ⟨7, 0, 1500, 90, 0, 0, 123⟩).euler.psi,
          1000 * (handlePioneerV2Telemetry ⟨10, false, false, true, 2011, 7, 2010, true,
            true, true⟩ ⟨7, 0, 1500, 90, 0, 0, 123⟩).depth.value⟩ :=
  (v2_estate_synthetic ⟨10, false, false, true, 2011, 7, 2010, true, true, true⟩
    ⟨7, 0, 1500, 90, 0, 0, 123⟩ rfl).1

/-- Truncation toward zero agrees with the floor on non-negatives. -/
lemma ctrunc_of_nonneg (q : ℚ) (h : 0 ≤ q) : ctrunc q = ⌊q⌋ :=
  if_pos h

/-- The 16-bit wrap is the identity inside the signed 16-bit range. -/
lemma wrap16_eq_self (n : Int) (h1 : -32768 ≤ n) (h2 : n ≤ 32767) : wrap16 n = n := by
  unfold wrap16
  have h3 : (n + 32768) % 65536 = n + 32768 :=
    Int.emod_eq_of_lt (by omega) (by omega)
  omega

/-- Outcome of one `consume(const IMC::Heartbeat*)` call: whether the
watchdog command was handed to `sendCommand`, the byte count that call
returned, and the watchdog message's `connection_duration` field after
the call. -/
structure HeartbeatResult where
  sent : Bool
  ret : Int
  connection_duration : Int

/-- Embedding of `Task::consume(const IMC::Heartbeat*)` (task source
lines 685-693): when the TCP channel reports connected and the
heartbeat's source is the local system id, the watchdog message's
`connection_duration` field is recomputed as the `int16_t`-cast elapsed
seconds since subsystem start and the message is resent; otherwise
nothing happens and the field keeps its previous value `wd`. -/
def consumeHeartbeat (args : Arguments) (connected : Bool)
    (pack : Except Unit Nat) (snd : Nat → Except Unit Int)
    (systemId msgSource : Nat) (now start_time : ℚ) (wd : Int) : HeartbeatResult :=
  if connected = true ∧ msgSource = systemId then
    ⟨true, (sendCommand ⟨args.listen_mode, connected, pack, snd⟩).ret,
      wrap16 (ctrunc (now - start_time))⟩
  else
    ⟨false, 0, wd⟩

/-- Counterexample to claim C9: a heartbeat delivered from the bus
while the channel is connected, whose source (2) is not the local
system id (1), does not resend the watchdog command, although the
claim requires a resend on every heartbeat while connected. -/
theorem heartbeat_foreign_source_not_sent :
    (consumeHeartbeat argsEcho true (Except.ok 4) (fun _ => Except.ok 4)
      1 2 100 0 0).sent = false := by
  rfl

/-- Claim C9 as amended: on every heartbeat whose source is the local
system id, while connected, the watchdog command is resent with its
`connection_duration` recomputed as the `int16_t`-cast elapsed seconds
since subsystem start; two such heartbeats 1 s apart yield strictly
increasing durations as long as the elapsed time is non-negative and
stays within the signed 16-bit range. -/
theorem heartbeat_watchdog (args : Arguments) (pack : Except Unit Nat)
    (snd : Nat → Except Unit Int) (sysId src : Nat) (now start : ℚ) (wd : Int) :
    (src = sysId →
      (consumeHeartbeat args true pack snd sysId src now start wd).sent = true
      ∧ (consumeHeartbeat args true pack snd sysId src now start wd).connection_duration
          = wrap16 (ctrunc (now - start)))
    ∧ (src = sysId → 0 ≤ now - start → ctrunc (now - start) + 1 ≤ 32767 →
        (consumeHeartbeat args true pack snd sysId src now start wd).connection_duration
          < (consumeHeartbeat args true pack snd sysId src (now + 1) start
              wd).connection_duration) := by
  have hcond : ∀ n : ℚ, src = sysId →
      consumeHeartbeat args true pack snd sysId src n start wd
        = ⟨true, (sendCommand ⟨args.listen_mode, true, pack, snd⟩).ret,
            wrap16 (ctrunc (n - start))⟩ := by
    intro n h
    unfold consumeHeartbeat
    rw [if_pos ⟨rfl, h⟩]
  constructor
  · intro h
    rw [hcond now h]
    exact ⟨rfl, rfl⟩
  · intro h h0 hb
    rw [hcond now h, hcond (now + 1) h]
    dsimp only
    have e1 : ctrunc (now - start) = ⌊now - start⌋ := ctrunc_of_nonneg _ h0
    have e3 : ctrunc (now + 1 - start) = ⌊now - start⌋ + 1 := by
      rw [show now + 1 - start = (now - start) + 1 by ring,
        ctrunc_of_nonneg _ (by linarith),
        show ((now - start) + 1 : ℚ) = (now - start) + ((1 : ℤ) : ℚ) by push_cast; ring,
        Int.floor_add_int]
    have hf0 : 0 ≤ ⌊now - start⌋ := Int.floor_nonneg.mpr h0
    rw [e1] at hb
    rw [e1, e3, wrap16_eq_self _ (by omega) (by omega),
      wrap16_eq_self _ (by omega) (by omega)]
    omega

/-- Witness for C9's amended theorem: two own-source heartbeats 1 s
apart while connected are both sent with strictly increasing
durations. -/
theorem heartbeat_watchdog_witness :
    (consumeHeartbeat argsEcho true (Except.ok 4) (fun _ => Except.ok 4)
      1 1 10 0 0).sent = true
    ∧ (consumeHeartbeat argsEcho true (Except.ok 4) (fun _ => Except.ok 4)
        1 1 10 0 0).connection_duration
      < (consumeHeartbeat argsEcho true (Except.ok 4) (fun _ => Except.ok 4)
          1 1 (10 + 1) 0 0).connection_duration := by
  have h := heartbeat_watchdog argsEcho (Except.ok 4) (fun _ => Except.ok 4) 1 1 10 0 0
  refine ⟨(h.1 rfl).1, h.2 rfl (by norm_num) ?_⟩
  rw [show (10 - 0 : ℚ) = 10 by norm_num, ctrunc_of_nonneg _ (by norm_num)]
  norm_num

end Pioneer
